import Mathlib

/-!
Verification of the scenario-to-artifact compiler in `generate_compose.py`
(repository `weelzo/aver-leaderboard`).

The compiler parses a scenario description, validates participant names,
resolves each agent's container image (directly or through the agentbeats
lookup capability), and renders three artifacts: a docker-compose topology,
an agent-to-agent scenario file, and a secret-placeholder env file.

Shallow embedding notes:
* TOML values are modelled by the inductive `Toml`; an agent table is the
  structure `Agent` whose `Option` fields model key presence.
* Python `str(value)` is modelled by `pyStr` (with `pyRepr` for the
  representation used inside containers, matching CPython for values
  without quote or escape characters in strings).
* The external agentbeats lookup is a parameter `fetch : String → Option
  String`; `none` covers every lookup failure (HTTP error, bad JSON,
  transport error), all of which abort the run in the source.
* `sys.exit` / uncaught exceptions are modelled by `Except`; the error
  taxonomy follows the specification's names.
* Renderers produce the artifact text as a list of segments joined by
  newlines (`String.intercalate "\n"`); the segment boundaries follow the
  line structure of the source templates, and the joined string equals the
  text the source produces character for character.
* `main` returns the event trace of the resolution phase, the files left
  on disk (`FS`), and the final outcome.  Opening a file with mode "w"
  truncates it before the content expression is evaluated, so a renderer
  that raises leaves an empty file behind; `main` models this.
-/

deriving instance DecidableEq for Except

/-- A single apostrophe, used when building strings that contain one. -/
def apos : String := String.singleton (Char.ofNat 39)

/-- A parsed TOML value (`tomli.loads` output), restricted to the value
shapes the compiler inspects.  Floats and datetimes are not needed by any
claim and are omitted. -/
inductive Toml where
  | str (s : String)
  | int (n : Int)
  | bool (b : Bool)
  | arr (xs : List Toml)
  | table (kvs : List (String × Toml))

/-- Decimal digit character, as produced by Python `str` on integers. -/
def digitChar (n : Nat) : Char :=
  if n = 0 then '0' else if n = 1 then '1' else if n = 2 then '2'
  else if n = 3 then '3' else if n = 4 then '4' else if n = 5 then '5'
  else if n = 6 then '6' else if n = 7 then '7' else if n = 8 then '8' else '9'

/-- Decimal representation of a natural number (list of digit chars,
most significant first), accumulator style.  The fuel argument only forces
structural termination; each step divides `n` by ten, so `n + 1` steps
always suffice. -/
def natReprAux : Nat → Nat → List Char → List Char
  | 0, _, acc => acc
  | fuel + 1, n, acc =>
    if n < 10 then digitChar (n % 10) :: acc
    else natReprAux fuel (n / 10) (digitChar (n % 10) :: acc)

/-- Python `str` of a natural number. -/
def natRepr (n : Nat) : String := (natReprAux (n + 1) n []).asString

/-- Python `str` of an integer: optional minus sign, then decimal digits. -/
def intRepr : Int → String
  | .ofNat m => natRepr m
  | .negSucc m => "-" ++ natRepr (m + 1)

mutual
/-- Python `repr` of a TOML value (for strings containing no quote or
escape characters, which is the shape the compiler's inputs take). -/
def pyRepr : Toml → String
  | .str s => apos ++ s ++ apos
  | .int n => intRepr n
  | .bool b => if b then "True" else "False"
  | .arr xs => "[" ++ pyReprList xs ++ "]"
  | .table kvs => "\x7b" ++ pyReprTable kvs ++ "\x7d"
/-- Python `repr` of a list body: elements separated by `", "`. -/
def pyReprList : List Toml → String
  | [] => ""
  | [x] => pyRepr x
  | x :: y :: xs => pyRepr x ++ ", " ++ pyReprList (y :: xs)
/-- Python `repr` of a dict body: `key: value` pairs separated by `", "`. -/
def pyReprTable : List (String × Toml) → String
  | [] => ""
  | [(k, v)] => apos ++ k ++ apos ++ ": " ++ pyRepr v
  | (k, v) :: y :: xs => apos ++ k ++ apos ++ ": " ++ pyRepr v ++ ", " ++ pyReprTable (y :: xs)
end

/-- Python `str` of a TOML value: the string itself for strings, `repr`
otherwise (CPython's `str` agrees with `repr` on ints, bools, lists and
dicts). -/
def pyStr : Toml → String
  | .str s => s
  | v => pyRepr v

/-- One agent table from the scenario file (the `green_agent` table or one
`[[participants]]` entry).  `Option` models presence of the key in the
parsed TOML dict. -/
structure Agent where
  name : Option String := none
  image : Option String := none
  agentbeats_id : Option String := none
  env : Option Toml := none

/-- The parsed `scenario.toml` top level (`data` in `parse_scenario`). -/
structure ScenarioData where
  green_agent : Option Agent := none
  participants : List Agent := []
  config : Option Toml := none

/-- Terminal error taxonomy of the compiler (each corresponds to a
`sys.exit(1)` path or an uncaught Python exception, `renderCrash`). -/
inductive Err where
  | conflictingDeclaration (role : String)
  | imageNotAllowedInCI (role : String)
  | missingDeclaration (role : String)
  | lookupFailure (role : String)
  | duplicateName (names : List (Option String))
  | renderCrash (msg : String)
  | inputNotFound
deriving DecidableEq, Repr

/-- Observable events of the resolution phase: entering `resolve_image`
for a role, and invoking the agentbeats lookup for an id. -/
inductive Ev where
  | resolve (role : String)
  | fetch (id : String)
deriving DecidableEq, Repr

/-- `resolve_image` (source lines 110-129): checks the `image` /
`agentbeats_id` declaration of one agent, consults the lookup capability
when only `agentbeats_id` is present, and on success stores the resolved
image back into the agent.  `ci` models a truthy `GITHUB_ACTIONS`
environment variable; `fetch` is the external lookup, `none` meaning any
lookup failure.  Returns the event trace together with the outcome. -/
def resolve_image (fetch : String → Option String) (ci : Bool)
    (agent : Agent) (role : String) : List Ev × Except Err Agent :=
  match agent.image, agent.agentbeats_id with
  | some _, some _ => ([Ev.resolve role], Except.error (Err.conflictingDeclaration role))
  | some _, none =>
      if ci then ([Ev.resolve role], Except.error (Err.imageNotAllowedInCI role))
      else ([Ev.resolve role], Except.ok agent)
  | none, some id =>
      match fetch id with
      | some img =>
          ([Ev.resolve role, Ev.fetch id], Except.ok { agent with image := some img })
      | none => ([Ev.resolve role, Ev.fetch id], Except.error (Err.lookupFailure role))
  | none, none => ([Ev.resolve role], Except.error (Err.missingDeclaration role))

/-- The duplicate list computed by `parse_scenario` (source lines 141-142):
`[name for name in set(names) if names.count(name) > 1]`.  Membership and
emptiness agree with Python's; the set iteration order is unspecified
there, so only membership is ever used. -/
def pyDups (names : List (Option String)) : List (Option String) :=
  names.dedup.filter (fun n => 2 ≤ names.count n)

/-- Resolve the images of all participants in declaration order (the loop
at source lines 148-150), accumulating the event trace and stopping at the
first failure. -/
def resolveParticipants (fetch : String → Option String) (ci : Bool) :
    List Agent → List Ev × Except Err (List Agent)
  | [] => ([], Except.ok [])
  | p :: rest =>
    let label := "participant " ++ apos ++ (p.name.getD "unknown") ++ apos
    let r := resolve_image fetch ci p label
    match r.2 with
    | Except.error e => (r.1, Except.error e)
    | Except.ok p' =>
      let rs := resolveParticipants fetch ci rest
      (r.1 ++ rs.1, rs.2.map (fun ps => p' :: ps))

/-- `parse_scenario` (source lines 131-152): resolves the evaluator's
image first, then checks participant-name uniqueness, then resolves every
participant's image.  An absent `green_agent` table is replaced by the
empty table (`data.get("green_agent", {})`). -/
def parse_scenario (fetch : String → Option String) (ci : Bool)
    (data : ScenarioData) : List Ev × Except Err ScenarioData :=
  let green := data.green_agent.getD {}
  let r1 := resolve_image fetch ci green "green_agent"
  match r1.2 with
  | Except.error e => (r1.1, Except.error e)
  | Except.ok green' =>
    let names := data.participants.map Agent.name
    let duplicates := pyDups names
    if duplicates.isEmpty then
      let r2 := resolveParticipants fetch ci data.participants
      (r1.1 ++ r2.1,
       r2.2.map (fun ps => { data with green_agent := some green', participants := ps }))
    else (r1.1, Except.error (Err.duplicateName duplicates))

/-- Fixed evaluator port (source line 55). -/
def GREEN_AGENT_PORT : Nat := 9000

/-- Fixed shared participant port (source line 56). -/
def PARTICIPANT_PORT : Nat := 8001

/-- Default environment entries merged into every service (source line 57). -/
def DEFAULT_ENV_VARS : List (String × Toml) := [("PYTHONUNBUFFERED", Toml.str "1")]

/-- First-match association lookup on a Python dict modelled as a list of
key-value pairs in insertion order. -/
def alookup (k : String) : List (String × Toml) → Option Toml
  | [] => none
  | (k', v) :: rest => if k' = k then some v else alookup k rest

/-- Whether a key is present in the dict. -/
def hasKey (k : String) : List (String × Toml) → Bool
  | [] => false
  | (k', _) :: rest => k' = k || hasKey k rest

/-- Replace the value stored at the first occurrence of a key. -/
def setKey (k : String) (v : Toml) : List (String × Toml) → List (String × Toml)
  | [] => []
  | (k', v') :: rest =>
      if k' = k then (k', v) :: rest else (k', v') :: setKey k v rest

/-- Python `d[k] = v` on an insertion-ordered dict: overwrite in place if
the key exists, append otherwise. -/
def dictSet (d : List (String × Toml)) (k : String) (v : Toml) : List (String × Toml) :=
  if hasKey k d then setKey k v d else d ++ [(k, v)]

/-- Python `{**d, **e}`: start from `d` and insert every entry of `e` in
order (later entries win, overridden keys keep their position in `d`). -/
def pyDictMerge (d : List (String × Toml)) : List (String × Toml) → List (String × Toml)
  | [] => d
  | (k, v) :: rest => pyDictMerge (dictSet d k v) rest

/-- One rendered environment line `      - KEY=value` (source line 157). -/
def envLine (kv : String × Toml) : String := "      - " ++ kv.1 ++ "=" ++ pyStr kv.2

/-- `format_env_vars` (source lines 154-158), as the list of rendered
lines; the source prefixes the joined lines with a newline, which the
callers realise by splicing these lines after an `environment:` header
segment.  A non-dict `env` value raises `TypeError` in `{**DEFAULT_ENV_VARS,
**env_dict}`. -/
def format_env_vars : Toml → Except String (List String)
  | Toml.table kvs => Except.ok ((pyDictMerge DEFAULT_ENV_VARS kvs).map envLine)
  | _ => Except.error "TypeError: env is not a mapping"

/-- `format_depends_on` (source lines 160-175) as its list of lines: for
each service a `name:` header and a gating condition, `service_healthy`
for members of `healthy_services`, `service_started` otherwise. -/
def format_depends_on : List String → List String → List String
  | [], _ => []
  | s :: rest, healthy_services =>
    ("      " ++ s ++ ":") ::
    (if s ∈ healthy_services then "        condition: service_healthy"
     else "        condition: service_started") ::
    format_depends_on rest healthy_services

/-- Startup gating of a dependency edge. -/
inductive Gating where
  | started
  | healthy
deriving DecidableEq, Repr

/-- The dependency set `format_depends_on` renders: each service paired
with the gating chosen by the `service in healthy_services` test. -/
def depsPairs (services healthy_services : List String) : List (String × Gating) :=
  services.map (fun s =>
    (s, if s ∈ healthy_services then Gating.healthy else Gating.started))

/-- The two lines rendered for one dependency edge. -/
def depLines (d : String × Gating) : List String :=
  [("      " ++ d.1 ++ ":"),
   (match d.2 with
    | Gating.healthy => "        condition: service_healthy"
    | Gating.started => "        condition: service_started")]

/-- Sequencing of fallible computations: evaluate the first; a raised
exception propagates, otherwise continue.  (Explicit bind on `Except`.) -/
def exBind (x : Except String α) (f : α → Except String β) : Except String β :=
  match x with
  | Except.error e => Except.error e
  | Except.ok a => f a

/-- Inversion: a successful `exBind` decomposes into two successes. -/
lemma exBind_ok {x : Except String α} {f : α → Except String β} {c : β}
    (h : exBind x f = Except.ok c) : ∃ a, x = Except.ok a ∧ f a = Except.ok c := by
  cases x with
  | error e => simp [exBind] at h
  | ok a => exact ⟨a, rfl, h⟩

/-- Forward: rewrite an `exBind` whose first component is known to succeed. -/
lemma exBind_eq_of_ok {x : Except String α} {f : α → Except String β} {a : α}
    (hx : x = Except.ok a) : exBind x f = f a := by
  subst hx; rfl

/-- Error-propagating map over a list, evaluated left to right (models a
Python list comprehension or loop whose body may raise). -/
def mapME (f : α → Except String β) : List α → Except String (List β)
  | [] => Except.ok []
  | x :: xs =>
    exBind (f x) (fun y => exBind (mapME f xs) (fun ys => Except.ok (y :: ys)))

/-- `scenario["green_agent"]` in a renderer: raises `KeyError` if absent. -/
def getGreen (s : ScenarioData) : Except String Agent :=
  match s.green_agent with
  | some g => Except.ok g
  | none => Except.error "KeyError: green_agent"

/-- `p["name"]`: raises `KeyError` if the participant has no name. -/
def getName (p : Agent) : Except String String :=
  match p.name with
  | some n => Except.ok n
  | none => Except.error "KeyError: name"

/-- `a["image"]`: raises `KeyError` if no image is present. -/
def getImage (a : Agent) : Except String String :=
  match a.image with
  | some i => Except.ok i
  | none => Except.error "KeyError: image"

/-- `agent.get("env", {})`: the env table, defaulting to the empty dict. -/
def envOrEmpty (a : Agent) : Toml := a.env.getD (Toml.table [])

/-- The segments of one participant service block (PARTICIPANT_TEMPLATE,
source lines 95-102); the trailing empty segment reflects the template's
trailing newline. -/
def participantBlockSegs (name image : String) (envLines : List String) : List String :=
  ("  " ++ name ++ ":") ::
  ("    image: " ++ image) ::
  "    platform: linux/amd64" ::
  ("    container_name: " ++ name) ::
  "    environment:" ::
  (envLines ++ ["    networks:", "      - agent-network", ""])

/-- Render one participant's service block (the comprehension at source
lines 184-191). -/
def participantService (p : Agent) : Except String (List String) :=
  exBind (getName p) (fun n =>
  exBind (getImage p) (fun img =>
  exBind (format_env_vars (envOrEmpty p)) (fun env =>
  Except.ok (participantBlockSegs n img env))))

/-- The segments of COMPOSE_TEMPLATE (source lines 59-93) with the five
substitution holes filled in; empty segments stand for blank lines and the
trailing newline. -/
def composeSegs (green_image : String) (green_env green_depends participant_services
    client_depends : List String) : List String :=
  ["# Auto-generated from scenario.toml",
   "",
   "services:",
   "  green-agent:",
   "    image: " ++ green_image,
   "    platform: linux/amd64",
   "    container_name: green-agent",
   "    environment:"] ++ green_env ++
  ["    healthcheck:",
   "      test: [\"CMD\", \"python\", \"-c\", \"import urllib.request; urllib.request.urlopen(" ++
     apos ++ "http://localhost:" ++ natRepr GREEN_AGENT_PORT ++ "/health" ++ apos ++ ")\"]",
   "      interval: 5s",
   "      timeout: 5s",
   "      retries: 10",
   "      start_period: 10s",
   "    depends_on:"] ++ green_depends ++
  ["    networks:",
   "      - agent-network",
   ""] ++ participant_services ++
  ["  agentbeats-client:",
   "    image: ghcr.io/agentbeats/agentbeats-client:v1.0.0",
   "    platform: linux/amd64",
   "    container_name: agentbeats-client",
   "    volumes:",
   "      - ./a2a-scenario.toml:/app/scenario.toml",
   "      - ./output:/app/output",
   "    command: [\"scenario.toml\", \"output/results.json\"]",
   "    depends_on:"] ++ client_depends ++
  ["    networks:",
   "      - agent-network",
   "",
   "networks:",
   "  agent-network:",
   "    driver: bridge",
   ""]

/-- The spliced form of a `format_depends_on` result: the source returns
`"\n" + "\n".join(lines)`, so an empty dependency list still contributes
one empty line after the `depends_on:` header. -/
def dependsSegs (services healthy_services : List String) : List String :=
  if services.isEmpty then [""] else format_depends_on services healthy_services

/-- Segment list of `generate_docker_compose` (source lines 177-202),
following the source's evaluation order.  Splicing `[""]` when there are
no participants mirrors `"\n".join([])` producing the empty line the
template reserves for `{participant_services}`. -/
def gdcSegs (scenario : ScenarioData) : Except String (List String) :=
  exBind (getGreen scenario) (fun green =>
  exBind (mapME getName scenario.participants) (fun participant_names =>
  exBind (mapME participantService scenario.participants) (fun blocks =>
  exBind (getImage green) (fun green_image =>
  exBind (format_env_vars (envOrEmpty green)) (fun green_env =>
  Except.ok (composeSegs green_image green_env
    (dependsSegs participant_names [])
    (if scenario.participants.isEmpty then [""] else blocks.flatten)
    (dependsSegs ("green-agent" :: participant_names) ["green-agent"])))))))

/-- `generate_docker_compose`: the docker-compose.yml text. -/
def generate_docker_compose (s : ScenarioData) : Except String String :=
  (gdcSegs s).map (String.intercalate "\n")

/-- Segments of one `[[participants]]` block of the a2a scenario file
(source lines 209-217): role, endpoint at the shared participant port, and
the `agentbeats_id` line exactly when that key is present; the trailing
empty segment is the `+ "\n"` the source appends to each block. -/
def participantA2ASegs (p : Agent) : Except String (List String) :=
  exBind (getName p) (fun n =>
    Except.ok
      (["[[participants]]",
        "role = \"" ++ n ++ "\"",
        "endpoint = \"http://" ++ n ++ ":" ++ natRepr PARTICIPANT_PORT ++ "\""] ++
       (match p.agentbeats_id with
        | some id => ["agentbeats_id = \"" ++ id ++ "\""]
        | none => []) ++ [""]))

/-- Segment list of `generate_a2a_scenario` (source lines 204-226).
`dumps` is the external TOML serializer (`tomli_w.dumps`), applied to the
one-entry dict `config ↦ scenario.get("config", {})`. -/
def a2aSegs (dumps : List (String × Toml) → String) (s : ScenarioData) :
    Except String (List String) :=
  exBind (mapME participantA2ASegs s.participants) (fun blocks =>
    Except.ok
      (["[green_agent]",
        "endpoint = \"http://green-agent:" ++ natRepr GREEN_AGENT_PORT ++ "\"",
        ""] ++
       (if s.participants.isEmpty then [""] else blocks.flatten) ++
       [dumps [("config", s.config.getD (Toml.table []))]]))

/-- `generate_a2a_scenario`: the a2a-scenario.toml text. -/
def generate_a2a_scenario (dumps : List (String × Toml) → String)
    (s : ScenarioData) : Except String String :=
  (a2aSegs dumps s).map (String.intercalate "\n")

/-- Non-overlapping matches of the placeholder pattern (a dollar sign, an
opening brace, one or more non-closing-brace characters, a closing brace),
returning the captured names left to right — `re.findall(r'\$\x7b([^\x7d]+)\x7d',
s)`.  The fuel argument only forces structural termination; every step
consumes at least one character, so `fuel = length` never runs out. -/
def findPhAux : Nat → List Char → List String
  | 0, _ => []
  | _ + 1, [] => []
  | fuel + 1, c :: rest =>
    if c = '$' then
      match rest with
      | '\x7b' :: rest2 =>
        (let content := rest2.takeWhile (fun d => d ≠ '\x7d')
         match rest2.dropWhile (fun d => d ≠ '\x7d') with
         | '\x7d' :: tail =>
             if content.isEmpty then findPhAux fuel rest
             else content.asString :: findPhAux fuel tail
         | _ => findPhAux fuel rest)
      | _ => findPhAux fuel rest
    else findPhAux fuel rest

/-- Placeholder names occurring in a string. -/
def findPh (s : String) : List String := findPhAux s.data.length s.data

/-- Placeholder names contributed by one environment value: the source
scans `str(value)` whatever the value's type (source lines 237, 242). -/
def valuePlaceholders (v : Toml) : List String := findPh (pyStr v)

/-- `agent.get("env", {}).values()` as used by the secret scanner: the env
dict's entries, raising `AttributeError` when `env` is present but not a
dict. -/
def envDictOf (a : Agent) : Except String (List (String × Toml)) :=
  match envOrEmpty a with
  | Toml.table kvs => Except.ok kvs
  | _ => Except.error "AttributeError: values"

/-- Lexicographic code-point comparison of character lists, exactly
Python's string comparison. -/
def charListLe : List Char → List Char → Bool
  | [], _ => true
  | _ :: _, [] => false
  | a :: as, b :: bs =>
    if a.toNat < b.toNat then true
    else if b.toNat < a.toNat then false
    else charListLe as bs

/-- Python `a <= b` on strings: lexicographic over code points. -/
def strLeB (a b : String) : Bool := charListLe a.data b.data

/-- `sorted(secrets)` for the set of collected names: the distinct names
in ascending lexicographic (code-point) order. -/
def sortedSecrets (l : List String) : List String :=
  List.insertionSort (fun a b => strLeB a b = true) l.dedup

/-- The sorted unique placeholder names of a scenario: every env value of
the evaluator, then of each participant, scanned via `str` (source lines
233-243). -/
def secretsOf (s : ScenarioData) : Except String (List String) :=
  exBind (getGreen s) (fun green =>
  exBind (envDictOf green) (fun gkvs =>
  exBind (mapME envDictOf s.participants) (fun pkvss =>
  Except.ok (sortedSecrets
    ((gkvs.map Prod.snd).flatMap valuePlaceholders ++
     (pkvss.flatMap (fun kvs => (kvs.map Prod.snd).flatMap valuePlaceholders)))))))

/-- `generate_env_file` (source lines 228-252): one `NAME=` line per
sorted unique placeholder followed by a trailing newline, or the empty
string when no placeholder occurs anywhere. -/
def generate_env_file (s : ScenarioData) : Except String String :=
  exBind (secretsOf s) (fun secrets =>
    if secrets.isEmpty then Except.ok ""
    else Except.ok (String.intercalate "\n" (secrets.map (fun n => n ++ "=")) ++ "\n"))

/-- The three output files as left on disk by a run: `none` means the file
was never created, `some text` that it exists with that content. -/
structure FS where
  compose : Option String := none
  a2a : Option String := none
  envFile : Option String := none
deriving DecidableEq, Repr

/-- `main` (source lines 254-277).  The scenario file must exist; parsing
and resolution run before any file is opened; each of the two `with
open(..., "w")` blocks truncates its file before evaluating the renderer,
so a renderer that raises leaves an empty file; the env file is only
opened when the rendered content is nonempty (and `generate_env_file` runs
before that open).  Returns the resolution trace, the files on disk, and
the outcome. -/
def mainRun (fetch : String → Option String) (ci : Bool)
    (dumps : List (String × Toml) → String)
    (scenarioExists : Bool) (data : ScenarioData) :
    List Ev × FS × Except Err Unit :=
  if scenarioExists then
    let pr := parse_scenario fetch ci data
    match pr.2 with
    | Except.error e => (pr.1, {}, Except.error e)
    | Except.ok s =>
      match generate_docker_compose s with
      | Except.error msg => (pr.1, { compose := some "" }, Except.error (Err.renderCrash msg))
      | Except.ok composeText =>
        match generate_a2a_scenario dumps s with
        | Except.error msg =>
            (pr.1, { compose := some composeText, a2a := some "" },
             Except.error (Err.renderCrash msg))
        | Except.ok a2aText =>
          match generate_env_file s with
          | Except.error msg =>
              (pr.1, { compose := some composeText, a2a := some a2aText },
               Except.error (Err.renderCrash msg))
          | Except.ok envText =>
              (pr.1,
               { compose := some composeText, a2a := some a2aText,
                 envFile := if envText.isEmpty then none else some envText },
               Except.ok ())
  else ([], {}, Except.error Err.inputNotFound)

/-! ## Claim C2: image-resolution error classification -/

/-- Claim C2: for every agent entry, image resolution fails with
`ConflictingDeclaration` iff both `image` and `agentbeats_id` are present;
fails with `MissingDeclaration` iff neither is present; fails with
`ImageNotAllowedInCI` iff only `image` is present and the CI flag is set;
and with only `image` present and the CI flag unset it succeeds with the
agent unchanged, the literal image accepted as is. -/
theorem claim_C2 (fetch : String → Option String) (ci : Bool) (a : Agent) (role : String) :
    ((resolve_image fetch ci a role).2 = Except.error (Err.conflictingDeclaration role)
      ↔ a.image.isSome ∧ a.agentbeats_id.isSome) ∧
    ((resolve_image fetch ci a role).2 = Except.error (Err.missingDeclaration role)
      ↔ a.image = none ∧ a.agentbeats_id = none) ∧
    ((resolve_image fetch ci a role).2 = Except.error (Err.imageNotAllowedInCI role)
      ↔ a.image.isSome ∧ a.agentbeats_id = none ∧ ci = true) ∧
    (a.image.isSome → a.agentbeats_id = none → ci = false →
      (resolve_image fetch ci a role).2 = Except.ok a) := by
  rcases a with ⟨n, img, abid, env⟩
  cases img <;> cases abid <;> cases ci <;>
    (try (rename_i id; cases h : fetch id)) <;>
    simp_all [resolve_image]

/-- Witness for C2: a sole literal image outside CI resolves to itself. -/
theorem claim_C2_witness :
    (resolve_image (fun _ => none) false { image := some "img:x" } "green_agent").2 =
      Except.ok { image := some "img:x" } :=
  (claim_C2 (fun _ => none) false { image := some "img:x" } "green_agent").2.2.2 rfl rfl rfl

/-! ## Claim C10: absent evaluator section -/

/-- Claim C10: a scenario without any `green_agent` section fails cleanly
with `MissingDeclaration` for the evaluator role (the parser substitutes
an empty agent table, which has neither `image` nor `agentbeats_id`), and
no output file is written. -/
theorem claim_C10 (fetch : String → Option String) (ci : Bool)
    (dumps : List (String × Toml) → String) (data : ScenarioData)
    (h : data.green_agent = none) :
    (parse_scenario fetch ci data).2 = Except.error (Err.missingDeclaration "green_agent") ∧
    (mainRun fetch ci dumps true data).2.1 = {} ∧
    (mainRun fetch ci dumps true data).2.2 =
      Except.error (Err.missingDeclaration "green_agent") := by
  refine ⟨?_, ?_, ?_⟩ <;>
    simp [parse_scenario, mainRun, h, resolve_image]

/-- Witness for C10: the empty scenario data. -/
theorem claim_C10_witness :
    (parse_scenario (fun _ => none) false {}).2 =
      Except.error (Err.missingDeclaration "green_agent") ∧
    (mainRun (fun _ => none) false (fun _ => "") true {}).2.1 = {} ∧
    (mainRun (fun _ => none) false (fun _ => "") true {}).2.2 =
      Except.error (Err.missingDeclaration "green_agent") :=
  claim_C10 (fun _ => none) false (fun _ => "") {} rfl

/-! ## Claim C3: duplicate participant names -/

/-- Membership in the reported duplicate list is exactly "occurs at least
twice among the participant names". -/
lemma mem_pyDups (names : List (Option String)) (x : Option String) :
    x ∈ pyDups names ↔ 2 ≤ names.count x := by
  simp only [pyDups, List.mem_filter, List.mem_dedup, decide_eq_true_eq]
  constructor
  · exact fun h => h.2
  · intro h
    exact ⟨List.count_pos_iff.mp (by omega), h⟩

/-- A scenario whose evaluator has both `image` and `agentbeats_id` and
whose two participants share the name `p`. -/
def cexScenarioC3 : ScenarioData :=
  { green_agent := some { image := some "img:g", agentbeats_id := some "gid" },
    participants := [{ name := some "p", image := some "img:p" },
                     { name := some "p", image := some "img:q" }] }

/-- Like `cexScenarioC3` but with an evaluator declared by identity
reference only, so that resolving it performs a lookup. -/
def cexScenarioC3b : ScenarioData :=
  { green_agent := some { agentbeats_id := some "gid" },
    participants := [{ name := some "p", image := some "img:p" },
                     { name := some "p", image := some "img:q" }] }

/-- Counterexample to C3 as stated: with a duplicated participant name the
run can fail with `ConflictingDeclaration` instead of `DuplicateName`
(evaluator errors come first), and even when it does fail with
`DuplicateName`, the evaluator's image resolution — including its remote
lookup — has already been performed, so the failure does not precede all
image resolution. -/
theorem claim_C3_counterexample :
    (2 ≤ (cexScenarioC3.participants.map Agent.name).count (some "p") ∧
     (parse_scenario (fun _ => none) false cexScenarioC3).2 =
       Except.error (Err.conflictingDeclaration "green_agent")) ∧
    ((parse_scenario (fun _ => some "img:r") false cexScenarioC3b).2 =
       Except.error (Err.duplicateName [some "p"]) ∧
     (parse_scenario (fun _ => some "img:r") false cexScenarioC3b).1 =
       [Ev.resolve "green_agent", Ev.fetch "gid"]) :=
  ⟨⟨by decide, rfl⟩, ⟨rfl, rfl⟩⟩

/-- Claim C3 as amended: when some participant name occurs more than once
and the evaluator's own image resolution succeeds, the run fails with
`DuplicateName` reporting all duplicated names together, before any
participant image resolution (the resolution trace is exactly the
evaluator's) and before any output file is written. -/
theorem claim_C3 (fetch : String → Option String) (ci : Bool)
    (dumps : List (String × Toml) → String) (data : ScenarioData) (g : Agent) (n : String)
    (hg : (resolve_image fetch ci (data.green_agent.getD {}) "green_agent").2 = Except.ok g)
    (hdup : 2 ≤ (data.participants.map Agent.name).count (some n)) :
    (parse_scenario fetch ci data).2 =
      Except.error (Err.duplicateName (pyDups (data.participants.map Agent.name))) ∧
    (∀ x, x ∈ pyDups (data.participants.map Agent.name) ↔
      2 ≤ (data.participants.map Agent.name).count x) ∧
    (parse_scenario fetch ci data).1 =
      (resolve_image fetch ci (data.green_agent.getD {}) "green_agent").1 ∧
    (mainRun fetch ci dumps true data).2.1 = {} := by
  have hne : (pyDups (data.participants.map Agent.name)).isEmpty = false := by
    have hmem : some n ∈ pyDups (data.participants.map Agent.name) :=
      (mem_pyDups _ _).mpr hdup
    rcases h : pyDups (data.participants.map Agent.name) with _ | ⟨a, l⟩
    · rw [h] at hmem; cases hmem
    · rfl
  have hparse : parse_scenario fetch ci data =
      ((resolve_image fetch ci (data.green_agent.getD {}) "green_agent").1,
       Except.error (Err.duplicateName (pyDups (data.participants.map Agent.name)))) := by
    simp [parse_scenario, hg, hne]
  refine ⟨by rw [hparse], fun x => mem_pyDups _ x, by rw [hparse], ?_⟩
  simp [mainRun, hparse]

/-- A scenario with a literal-image evaluator and two participants both
named `w`. -/
def witScenarioC3 : ScenarioData :=
  { green_agent := some { image := some "img:g" },
    participants := [{ name := some "w", image := some "img:p" },
                     { name := some "w", image := some "img:q" }] }

/-- Witness for the amended C3 at a concrete scenario. -/
theorem claim_C3_witness :
    (parse_scenario (fun _ => none) false witScenarioC3).2 =
      Except.error (Err.duplicateName (pyDups (witScenarioC3.participants.map Agent.name))) ∧
    (∀ x, x ∈ pyDups (witScenarioC3.participants.map Agent.name) ↔
      2 ≤ (witScenarioC3.participants.map Agent.name).count x) ∧
    (parse_scenario (fun _ => none) false witScenarioC3).1 =
      (resolve_image (fun _ => none) false (witScenarioC3.green_agent.getD {})
        "green_agent").1 ∧
    (mainRun (fun _ => none) false (fun _ => "") true witScenarioC3).2.1 = {} :=
  claim_C3 (fun _ => none) false (fun _ => "") witScenarioC3
    { image := some "img:g" } "w" rfl (by decide)

/-! ## Claim C1: startup dependency sets -/

/-- The dependency set passed for the evaluator service: every participant
name, none health-gated (source line 199). -/
def composeGreenDeps (s : ScenarioData) : Except String (List (String × Gating)) :=
  (mapME getName s.participants).map (fun ns => depsPairs ns [])

/-- The dependency set passed for the aggregator/client service: the
evaluator service followed by every participant name, with only members of
`["green-agent"]` health-gated (source line 201). -/
def composeClientDeps (s : ScenarioData) : Except String (List (String × Gating)) :=
  (mapME getName s.participants).map
    (fun ns => depsPairs ("green-agent" :: ns) ["green-agent"])

/-- `format_depends_on` renders exactly the dependency pairs of
`depsPairs`, two lines per edge. -/
lemma format_depends_on_eq (ss hs : List String) :
    format_depends_on ss hs = (depsPairs ss hs).flatMap depLines := by
  induction ss with
  | nil => rfl
  | cons s rest ih =>
    by_cases h : s ∈ hs <;>
      simp [format_depends_on, depsPairs, depLines, h, ih]

/-- A nonempty service list renders exactly the dependency pairs of
`depsPairs`. -/
lemma dependsSegs_eq (ss hs : List String) (h : ss ≠ []) :
    dependsSegs ss hs = (depsPairs ss hs).flatMap depLines := by
  cases ss with
  | nil => exact absurd rfl h
  | cons a rest =>
    unfold dependsSegs
    rw [if_neg (by simp), format_depends_on_eq]

/-- The compose renderer emits the evaluator's and the client's dependency
blocks as the rendering of `composeGreenDeps` / `composeClientDeps`. -/
lemma gdcSegs_renders_deps (s : ScenarioData) (green : Agent) (ns : List String)
    (blocks : List (List String)) (gi : String) (ge : List String)
    (h1 : getGreen s = Except.ok green)
    (h2 : mapME getName s.participants = Except.ok ns)
    (h3 : mapME participantService s.participants = Except.ok blocks)
    (h4 : getImage green = Except.ok gi)
    (h5 : format_env_vars (envOrEmpty green) = Except.ok ge)
    (h6 : ns ≠ []) :
    gdcSegs s = Except.ok (composeSegs gi ge
      ((depsPairs ns []).flatMap depLines)
      (if s.participants.isEmpty then [""] else blocks.flatten)
      ((depsPairs ("green-agent" :: ns) ["green-agent"]).flatMap depLines)) := by
  simp only [gdcSegs, exBind_eq_of_ok h1, exBind_eq_of_ok h2, exBind_eq_of_ok h3,
    exBind_eq_of_ok h4, exBind_eq_of_ok h5, dependsSegs_eq ns [] h6,
    dependsSegs_eq ("green-agent" :: ns) ["green-agent"] (by simp)]

/-- A string with an appended suffix differs from any string whose first
`k` characters differ from the prefix's. -/
lemma append_ne_left (p x t : String) (k : Nat) (hk : k ≤ p.data.length)
    (h : p.data.take k ≠ t.data.take k) : p ++ x ≠ t := by
  intro he
  apply h
  have hd : p.data ++ x.data = t.data := by rw [← String.data_append, he]
  calc p.data.take k
      = (p.data ++ x.data).take k := by
        rw [List.take_append_eq_append_take, Nat.sub_eq_zero_of_le hk,
          List.take_zero, List.append_nil]
    _ = t.data.take k := by rw [hd]

/-- A string ending in a colon differs from any string that does not. -/
lemma append_colon_ne (s t : String) (h : t.data.getLast? ≠ some ':') :
    s ++ ":" ≠ t := by
  intro he
  apply h
  rw [← he, String.data_append]
  exact List.getLast?_concat _

/-- No participant service block contains a dependency-gating line: the
participant template has no `depends_on` section at all. -/
lemma participant_block_no_condition (p : Agent) (segs : List String)
    (h : participantService p = Except.ok segs) :
    "        condition: service_started" ∉ segs ∧
    "        condition: service_healthy" ∉ segs := by
  simp only [participantService] at h
  obtain ⟨n, hn, h⟩ := exBind_ok h
  obtain ⟨img, hi, h⟩ := exBind_ok h
  obtain ⟨env, he, h⟩ := exBind_ok h
  cases h
  have henv : ∃ l : List (String × Toml), env = l.map envLine := by
    cases hv : envOrEmpty p <;> rw [hv] at he <;>
      simp only [format_env_vars] at he <;> cases he
    exact ⟨_, rfl⟩
  obtain ⟨l, rfl⟩ := henv
  constructor <;>
  · intro hmem
    simp only [participantBlockSegs, List.mem_cons, List.mem_append,
      List.mem_map, List.not_mem_nil, or_false] at hmem
    rcases hmem with h1 | h1 | h1 | h1 | h1 | ⟨kv, _, h1⟩ | h1 | h1 | h1
    · exact append_colon_ne ("  " ++ n) _ (by decide) h1.symm
    · exact append_ne_left "    image: " img _ 5 (by decide) (by decide) h1.symm
    · exact absurd h1 (by decide)
    · exact append_ne_left "    container_name: " n _ 5 (by decide) (by decide) h1.symm
    · exact absurd h1 (by decide)
    · have : envLine kv = "      - " ++ (kv.1 ++ ("=" ++ pyStr kv.2)) := by
        simp [envLine, String.append_assoc]
      rw [this] at h1
      exact append_ne_left "      - " _ _ 7 (by decide) (by decide) h1
    · exact absurd h1 (by decide)
    · exact absurd h1 (by decide)
    · exact absurd h1 (by decide)

/-- Claim C1 as amended: for every successfully resolved scenario in which
no participant is itself named `green-agent`, the aggregator/client
service's dependency list is exactly the evaluator with `healthy` gating
followed by every participant with `started` gating, the evaluator's
dependency list is exactly every participant with `started` gating, and no
participant service block carries any gating line at all. -/
theorem claim_C1 (fetch : String → Option String) (ci : Bool)
    (data s' : ScenarioData) (ns : List String)
    (hres : (parse_scenario fetch ci data).2 = Except.ok s')
    (hns : mapME getName s'.participants = Except.ok ns)
    (hgn : "green-agent" ∉ ns) :
    composeClientDeps s' =
      Except.ok (("green-agent", Gating.healthy) :: ns.map (fun n => (n, Gating.started))) ∧
    composeGreenDeps s' = Except.ok (ns.map (fun n => (n, Gating.started))) ∧
    (∀ p ∈ s'.participants, ∀ segs, participantService p = Except.ok segs →
      "        condition: service_started" ∉ segs ∧
      "        condition: service_healthy" ∉ segs) := by
  have hmap : ns.map (fun n => (n, if n = "green-agent" then Gating.healthy
      else Gating.started)) = ns.map (fun n => (n, Gating.started)) := by
    apply List.map_congr_left
    intro a ha
    have : a ≠ "green-agent" := fun h => hgn (h ▸ ha)
    simp [this]
  refine ⟨?_, ?_, ?_⟩
  · simp [composeClientDeps, hns, depsPairs, Except.map, hmap]
  · simp [composeGreenDeps, hns, depsPairs, Except.map]
  · intro p _ segs hsegs
    exact participant_block_no_condition p segs hsegs

/-- A resolved scenario whose only participant is named `green-agent`,
colliding with the evaluator's service name. -/
def cexScenarioC1 : ScenarioData :=
  { green_agent := some { image := some "img:g" },
    participants := [{ name := some "green-agent", image := some "img:p" }] }

/-- Counterexample to C1 as stated: resolution succeeds, but the client's
dependency list gives the participant named `green-agent` `healthy` gating
(twice), so the pair (participant, started) demanded by the claim is
absent from the dependency set. -/
theorem claim_C1_counterexample :
    (parse_scenario (fun _ => none) false cexScenarioC1).2 = Except.ok cexScenarioC1 ∧
    composeClientDeps cexScenarioC1 =
      Except.ok [("green-agent", Gating.healthy), ("green-agent", Gating.healthy)] ∧
    ("green-agent", Gating.started) ∉
      [(("green-agent" : String), Gating.healthy), ("green-agent", Gating.healthy)] :=
  ⟨rfl, rfl, by decide⟩

/-- A plain resolved scenario for the C1 witness. -/
def witScenarioC1 : ScenarioData :=
  { green_agent := some { image := some "img:g" },
    participants := [{ name := some "p1", image := some "img:p1" }] }

/-- Witness for the amended C1 at a concrete scenario. -/
theorem claim_C1_witness :
    composeClientDeps witScenarioC1 =
      Except.ok [("green-agent", Gating.healthy), ("p1", Gating.started)] ∧
    composeGreenDeps witScenarioC1 = Except.ok [("p1", Gating.started)] :=
  ⟨(claim_C1 (fun _ => none) false witScenarioC1 witScenarioC1 ["p1"]
      rfl rfl (by decide)).1,
   (claim_C1 (fun _ => none) false witScenarioC1 witScenarioC1 ["p1"]
      rfl rfl (by decide)).2.1⟩

/-! ## Claim C4: no partial output -/

/-- If every participant has a name, the a2a participant blocks render
without raising. -/
lemma a2a_blocks_ok_of_names (ps : List Agent) (ns : List String)
    (h : mapME getName ps = Except.ok ns) :
    ∃ blocks, mapME participantA2ASegs ps = Except.ok blocks := by
  induction ps generalizing ns with
  | nil => exact ⟨[], rfl⟩
  | cons p rest ih =>
    simp only [mapME] at h ⊢
    obtain ⟨n, hn, h⟩ := exBind_ok h
    obtain ⟨ns', hr, h⟩ := exBind_ok h
    obtain ⟨blocks, hb⟩ := ih ns' hr
    cases hp : participantA2ASegs p with
    | error e =>
        exfalso
        simp only [participantA2ASegs, exBind_eq_of_ok hn] at hp
        cases hp
    | ok a =>
        exact ⟨a :: blocks, by simp [exBind, hb]⟩

/-- A participant whose env table rendered also has a readable env dict. -/
lemma envDict_ok_of_fmt (a : Agent) (ge : List String)
    (h : format_env_vars (envOrEmpty a) = Except.ok ge) :
    ∃ kvs, envDictOf a = Except.ok kvs := by
  cases hv : envOrEmpty a
  case table kvs => exact ⟨kvs, by simp [envDictOf, hv]⟩
  all_goals (rw [hv] at h; simp only [format_env_vars] at h; cases h)

/-- All participants whose service blocks rendered have readable env
dicts. -/
lemma envDicts_ok_of_services (ps : List Agent) (blocks : List (List String))
    (h : mapME participantService ps = Except.ok blocks) :
    ∃ ds, mapME envDictOf ps = Except.ok ds := by
  induction ps generalizing blocks with
  | nil => exact ⟨[], rfl⟩
  | cons p rest ih =>
    simp only [mapME] at h ⊢
    obtain ⟨segs, hp, h⟩ := exBind_ok h
    obtain ⟨rest', hr, h⟩ := exBind_ok h
    obtain ⟨ds, hd⟩ := ih rest' hr
    simp only [participantService] at hp
    obtain ⟨n, hn, hp⟩ := exBind_ok hp
    obtain ⟨img, hi, hp⟩ := exBind_ok hp
    obtain ⟨env, he, hp⟩ := exBind_ok hp
    obtain ⟨kvs, hk⟩ := envDict_ok_of_fmt p _ he
    exact ⟨_, by rw [exBind_eq_of_ok hk, exBind_eq_of_ok hd]⟩

/-- Decomposition of a successful docker-compose rendering into the
success of each of its sub-computations. -/
lemma gdcSegs_ok_parts (s : ScenarioData) (segs : List String)
    (h : gdcSegs s = Except.ok segs) :
    ∃ green ns blocks gi ge,
      getGreen s = Except.ok green ∧
      mapME getName s.participants = Except.ok ns ∧
      mapME participantService s.participants = Except.ok blocks ∧
      getImage green = Except.ok gi ∧
      format_env_vars (envOrEmpty green) = Except.ok ge := by
  simp only [gdcSegs] at h
  obtain ⟨green, h1, h⟩ := exBind_ok h
  obtain ⟨ns, h2, h⟩ := exBind_ok h
  obtain ⟨blocks, h3, h⟩ := exBind_ok h
  obtain ⟨gi, h4, h⟩ := exBind_ok h
  obtain ⟨ge, h5, h⟩ := exBind_ok h
  exact ⟨green, ns, blocks, gi, ge, h1, h2, h3, h4, h5⟩

/-- Once the docker-compose artifact has rendered, the a2a scenario
renders too. -/
lemma a2a_ok_of_gdc (dumps : List (String × Toml) → String) (s : ScenarioData)
    (ct : String) (h : generate_docker_compose s = Except.ok ct) :
    (generate_a2a_scenario dumps s).isOk = true := by
  unfold generate_docker_compose at h
  cases hg : gdcSegs s <;> rw [hg] at h
  · cases h
  · obtain ⟨green, ns, blocks, gi, ge, _, h2, _, _, _⟩ := gdcSegs_ok_parts s _ hg
    obtain ⟨ablocks, hb⟩ := a2a_blocks_ok_of_names s.participants ns h2
    rw [generate_a2a_scenario, a2aSegs, exBind_eq_of_ok hb]
    rfl

/-- Once the docker-compose artifact has rendered, the env-file renderer
cannot raise either. -/
lemma env_file_ok_of_gdc (s : ScenarioData) (ct : String)
    (h : generate_docker_compose s = Except.ok ct) :
    (generate_env_file s).isOk = true := by
  unfold generate_docker_compose at h
  cases hg : gdcSegs s <;> rw [hg] at h
  · cases h
  · obtain ⟨green, ns, blocks, gi, ge, h1, h2, h3, h4, h5⟩ := gdcSegs_ok_parts s _ hg
    obtain ⟨gkvs, hgk⟩ := envDict_ok_of_fmt green _ h5
    obtain ⟨ds, hds⟩ := envDicts_ok_of_services s.participants blocks h3
    rw [generate_env_file, secretsOf, exBind_eq_of_ok h1, exBind_eq_of_ok hgk,
      exBind_eq_of_ok hds, exBind_eq_of_ok rfl]
    split <;> rfl

/-- A scenario that parses and resolves fine (a single nameless
participant declared by literal image) but whose rendering raises
`KeyError` on `p["name"]`. -/
def cexScenarioC4 : ScenarioData :=
  { green_agent := some { image := some "img:g" },
    participants := [{ image := some "img:p" }] }

/-- Counterexample to C4 as stated: validation and resolution succeed,
rendering the deployment topology fails, and the run nevertheless leaves
an (empty, truncated) docker-compose.yml on disk, because the file is
opened for writing before the renderer is evaluated. -/
theorem claim_C4_counterexample :
    (parse_scenario (fun _ => none) false cexScenarioC4).2 = Except.ok cexScenarioC4 ∧
    (mainRun (fun _ => none) false (fun _ => "") true cexScenarioC4).2.2 =
      Except.error (Err.renderCrash "KeyError: name") ∧
    (mainRun (fun _ => none) false (fun _ => "") true cexScenarioC4).2.1 =
      { compose := some "" } :=
  ⟨rfl, rfl, rfl⟩

/-- Claim C4 as amended: if the scenario file is absent or validation or
image resolution fails, no output file is written at all; if rendering the
deployment topology fails, a truncated (empty) deployment-topology file is
left behind and nothing else; and once the deployment-topology rendering
succeeds, the remaining renderers cannot fail and the run completes with
the full artifact set on disk. -/
theorem claim_C4 (fetch : String → Option String) (ci : Bool)
    (dumps : List (String × Toml) → String) (data : ScenarioData) :
    (∀ e, (parse_scenario fetch ci data).2 = Except.error e →
      (mainRun fetch ci dumps true data).2.1 = {} ∧
      (mainRun fetch ci dumps true data).2.2 = Except.error e) ∧
    ((mainRun fetch ci dumps false data).2.1 = {}) ∧
    (∀ s' msg, (parse_scenario fetch ci data).2 = Except.ok s' →
      generate_docker_compose s' = Except.error msg →
      (mainRun fetch ci dumps true data).2.1 = { compose := some "" } ∧
      (mainRun fetch ci dumps true data).2.2 = Except.error (Err.renderCrash msg)) ∧
    (∀ s' ct, (parse_scenario fetch ci data).2 = Except.ok s' →
      generate_docker_compose s' = Except.ok ct →
      (generate_a2a_scenario dumps s').isOk = true ∧
      (generate_env_file s').isOk = true ∧
      (mainRun fetch ci dumps true data).2.2 = Except.ok () ∧
      (mainRun fetch ci dumps true data).2.1.compose = some ct ∧
      (mainRun fetch ci dumps true data).2.1.a2a ≠ none) := by
  refine ⟨?_, ?_, ?_, ?_⟩
  · intro e he
    constructor <;> simp [mainRun, he]
  · simp [mainRun]
  · intro s' msg hp hg
    constructor <;> simp [mainRun, hp, hg]
  · intro s' ct hp hg
    have ha := a2a_ok_of_gdc dumps s' ct hg
    have he := env_file_ok_of_gdc s' ct hg
    cases hA : generate_a2a_scenario dumps s' with
    | error e => rw [hA] at ha; simp [Except.isOk, Except.toBool] at ha
    | ok a2aText =>
      cases hE : generate_env_file s' with
      | error e => rw [hE] at he; simp [Except.isOk, Except.toBool] at he
      | ok envText =>
        refine ⟨by simp [hA, Except.isOk, Except.toBool],
          by simp [hE, Except.isOk, Except.toBool], ?_, ?_, ?_⟩ <;>
          simp [mainRun, hp, hg, hA, hE]

/-- Witness for the amended C4: the empty scenario fails resolution and
leaves no file on disk. -/
theorem claim_C4_witness :
    (mainRun (fun _ => none) false (fun _ => "") true {}).2.1 = {} ∧
    (mainRun (fun _ => none) false (fun _ => "") true {}).2.2 =
      Except.error (Err.missingDeclaration "green_agent") :=
  (claim_C4 (fun _ => none) false (fun _ => "") {}).1
    (Err.missingDeclaration "green_agent") rfl

/-! ## Claim C5: non-string environment values and the secret scanner -/

/-- Digit characters are never a dollar sign. -/
lemma digitChar_not_dollar (n : Nat) : digitChar n ≠ '$' := by
  unfold digitChar
  repeat' split
  all_goals decide

/-- The decimal digits of a natural number contain no dollar sign. -/
lemma natReprAux_no_dollar : ∀ (fuel n : Nat) (acc : List Char),
    '$' ∉ acc → '$' ∉ natReprAux fuel n acc := by
  intro fuel
  induction fuel with
  | zero => intro n acc hacc; exact hacc
  | succ fuel ih =>
    intro n acc hacc
    rw [natReprAux]
    split
    · intro hmem
      rcases List.mem_cons.mp hmem with h | h
      · exact digitChar_not_dollar _ h.symm
      · exact hacc h
    · refine ih (n / 10) _ ?_
      intro hmem
      rcases List.mem_cons.mp hmem with h | h
      · exact digitChar_not_dollar _ h.symm
      · exact hacc h

/-- A string without a dollar sign contains no placeholder. -/
lemma findPhAux_eq_nil (fuel : Nat) (l : List Char) (h : '$' ∉ l) :
    findPhAux fuel l = [] := by
  induction fuel generalizing l with
  | zero => rfl
  | succ fuel ih =>
    cases l with
    | nil => rfl
    | cons c rest =>
      have hc : ¬c = '$' := fun hh => h (hh ▸ List.mem_cons_self c rest)
      have hr : '$' ∉ rest := fun hh => h (List.mem_cons_of_mem c hh)
      simp [findPhAux, hc, ih rest hr]

/-- The textual form of an integer contains no dollar sign. -/
lemma intRepr_no_dollar (n : Int) : '$' ∉ (intRepr n).data := by
  cases n with
  | ofNat m =>
    show '$' ∉ (natRepr m).data
    exact natReprAux_no_dollar (m + 1) m [] (by simp)
  | negSucc m =>
    show '$' ∉ ("-" ++ natRepr (m + 1)).data
    rw [String.data_append]
    intro hmem
    rcases List.mem_append.mp hmem with h | h
    · simp at h
    · exact natReprAux_no_dollar (m + 2) (m + 1) [] (by simp) h

/-- Claim C5 as amended: a non-string environment value is scanned through
its textual (`str`) representation, so it contributes exactly the
placeholder names occurring there.  In particular scalar integer and
boolean values contribute no placeholder names to the SecretSet. -/
theorem claim_C5 (n : Int) (b : Bool) :
    valuePlaceholders (Toml.int n) = [] ∧
    valuePlaceholders (Toml.bool b) = [] := by
  constructor
  · show findPh (pyStr (Toml.int n)) = []
    have hps : pyStr (Toml.int n) = intRepr n := rfl
    rw [hps]
    exact findPhAux_eq_nil _ _ (intRepr_no_dollar n)
  · cases b <;> rfl

/-- A scenario whose only environment value is a TOML array (not a
string) containing the placeholder string. -/
def cexAgentC5 : Agent :=
  { image := some "img:g",
    env := some (Toml.table [("KEY", Toml.arr [Toml.str "$\x7bA\x7d"])]) }

/-- A scenario whose only environment value is that of `cexAgentC5`. -/
def cexScenarioC5 : ScenarioData := { green_agent := some cexAgentC5 }

/-- Counterexample to C5 as stated: the array value (a non-string) does
contribute the placeholder name `A` — the scanner applies the regex to
`str(value)`, which for this value is the text `['$\x7bA\x7d']`. -/
theorem claim_C5_counterexample :
    secretsOf cexScenarioC5 = Except.ok ["A"] ∧
    generate_env_file cexScenarioC5 = Except.ok ("A=" ++ "\n") :=
  ⟨rfl, rfl⟩

/-! ## Claim C6: the secret-placeholder artifact -/

/-- `charListLe` is transitive. -/
lemma charListLe_trans : ∀ as bs cs : List Char,
    charListLe as bs = true → charListLe bs cs = true → charListLe as cs = true := by
  intro as
  induction as with
  | nil => intro bs cs h1 h2; rfl
  | cons a as ih =>
    intro bs cs h1 h2
    cases bs with
    | nil => simp [charListLe] at h1
    | cons b bs =>
      cases cs with
      | nil => simp [charListLe] at h2
      | cons c cs =>
        simp only [charListLe] at h1 h2 ⊢
        split_ifs at h1 h2 ⊢ <;>
          first
            | rfl
            | exact ih bs cs h1 h2
            | omega
            | cases h1
            | cases h2

/-- `charListLe` is total. -/
lemma charListLe_total : ∀ as bs : List Char,
    charListLe as bs = true ∨ charListLe bs as = true := by
  intro as
  induction as with
  | nil => intro bs; left; rfl
  | cons a as ih =>
    intro bs
    cases bs with
    | nil => right; rfl
    | cons b bs =>
      simp only [charListLe]
      split_ifs <;>
        first
          | (left; rfl)
          | (right; rfl)
          | exact ih bs
          | omega

instance : IsTrans String (fun a b => strLeB a b = true) :=
  ⟨fun _ _ _ h1 h2 => charListLe_trans _ _ _ h1 h2⟩

instance : IsTotal String (fun a b => strLeB a b = true) :=
  ⟨fun _ _ => charListLe_total _ _⟩

/-- The secret list is sorted ascending in code-point order. -/
lemma sortedSecrets_sorted (l : List String) :
    List.Sorted (fun a b => strLeB a b = true) (sortedSecrets l) :=
  List.sorted_insertionSort _ _

/-- The secret list has no duplicates. -/
lemma sortedSecrets_nodup (l : List String) : (sortedSecrets l).Nodup :=
  ((List.perm_insertionSort _ _).nodup_iff).mpr (List.nodup_dedup l)

/-- Membership in the secret list is membership among the collected
names. -/
lemma mem_sortedSecrets (l : List String) (x : String) :
    x ∈ sortedSecrets l ↔ x ∈ l := by
  unfold sortedSecrets
  rw [(List.perm_insertionSort _ _).mem_iff, List.mem_dedup]

/-- Appending a newline leaves a string nonempty. -/
lemma append_newline_not_isEmpty (s : String) : (s ++ "\n").isEmpty = false := by
  rw [Bool.eq_false_iff]
  intro h
  have heq := (String.isEmpty_iff _).mp h
  have hd : (s ++ "\n").data = s.data ++ ['\n'] := by rw [String.data_append]
  rw [heq] at hd
  simp at hd

/-- Claim C6: for every resolved scenario whose run completes, the
secret list is sorted (ascending code-point order) and duplicate-free and
contains exactly the placeholder names collected from all env values of
the evaluator and every participant; the placeholder artifact consists of
one `NAME=` line per entry with a trailing newline and is written exactly
when the list is nonempty. -/
theorem claim_C6 (fetch : String → Option String) (ci : Bool)
    (dumps : List (String × Toml) → String) (data s' : ScenarioData)
    (secrets : List String)
    (hp : (parse_scenario fetch ci data).2 = Except.ok s')
    (hsec : secretsOf s' = Except.ok secrets)
    (hmain : (mainRun fetch ci dumps true data).2.2 = Except.ok ()) :
    List.Sorted (fun a b => strLeB a b = true) secrets ∧
    secrets.Nodup ∧
    (∃ green gkvs pkvss,
      getGreen s' = Except.ok green ∧
      envDictOf green = Except.ok gkvs ∧
      mapME envDictOf s'.participants = Except.ok pkvss ∧
      (∀ x, x ∈ secrets ↔
        x ∈ (gkvs.map Prod.snd).flatMap valuePlaceholders ++
          pkvss.flatMap (fun kvs => (kvs.map Prod.snd).flatMap valuePlaceholders))) ∧
    (secrets = [] →
      generate_env_file s' = Except.ok "" ∧
      (mainRun fetch ci dumps true data).2.1.envFile = none) ∧
    (secrets ≠ [] →
      generate_env_file s' = Except.ok
        (String.intercalate "\n" (secrets.map (fun n => n ++ "=")) ++ "\n") ∧
      (mainRun fetch ci dumps true data).2.1.envFile =
        some (String.intercalate "\n" (secrets.map (fun n => n ++ "=")) ++ "\n")) := by
  obtain ⟨green, h1, hrest⟩ := exBind_ok hsec
  obtain ⟨gkvs, h2, hrest⟩ := exBind_ok hrest
  obtain ⟨pkvss, h3, hrest⟩ := exBind_ok hrest
  have hsecrets : secrets = sortedSecrets
      ((gkvs.map Prod.snd).flatMap valuePlaceholders ++
       pkvss.flatMap (fun kvs => (kvs.map Prod.snd).flatMap valuePlaceholders)) := by
    cases hrest; rfl
  cases hg : generate_docker_compose s' with
  | error msg => simp [mainRun, hp, hg] at hmain
  | ok ct =>
    cases hA : generate_a2a_scenario dumps s' with
    | error msg => simp [mainRun, hp, hg, hA] at hmain
    | ok a2aText =>
      have henv : generate_env_file s' =
          (if secrets.isEmpty then Except.ok ""
           else Except.ok (String.intercalate "\n"
             (secrets.map (fun n => n ++ "=")) ++ "\n")) := by
        rw [generate_env_file, exBind_eq_of_ok hsec]
      refine ⟨?_, ?_, ⟨green, gkvs, pkvss, h1, h2, h3, ?_⟩, ?_, ?_⟩
      · rw [hsecrets]; exact sortedSecrets_sorted _
      · rw [hsecrets]; exact sortedSecrets_nodup _
      · intro x; rw [hsecrets]; exact mem_sortedSecrets _ x
      · intro hnil
        have hempty : secrets.isEmpty = true := by simp [hnil]
        rw [henv, if_pos hempty]
        refine ⟨rfl, ?_⟩
        have hE : generate_env_file s' = Except.ok "" := by rw [henv, if_pos hempty]
        simp [mainRun, hp, hg, hA, hE, show ("" : String).isEmpty = true from rfl]
      · intro hne
        have hempty : secrets.isEmpty = false := by
          cases hsecl : secrets with
          | nil => exact absurd hsecl hne
          | cons x xs => rfl
        rw [henv, if_neg (by simp [hempty])]
        refine ⟨rfl, ?_⟩
        have hE : generate_env_file s' = Except.ok (String.intercalate "\n"
            (secrets.map (fun n => n ++ "=")) ++ "\n") := by
          rw [henv, if_neg (by simp [hempty])]
        simp [mainRun, hp, hg, hA, hE, append_newline_not_isEmpty]

/-- Scenario for the C6 witness: one placeholder in the evaluator's env,
one in the participant's. -/
def witScenarioC6 : ScenarioData :=
  { green_agent := some
      { image := some "img:g",
        env := some (Toml.table [("K", Toml.str "$\x7bZ_TOKEN\x7d")]) },
    participants := [
      { name := some "p1", image := some "img:p1",
        env := some (Toml.table [("J", Toml.str "x$\x7bA_KEY\x7dy")]) }] }

/-- Witness for C6: the two collected names come out sorted with one
`NAME=` line each, and the env file is written. -/
theorem claim_C6_witness :
    generate_env_file witScenarioC6 =
      Except.ok (String.intercalate "\n"
        (["A_KEY", "Z_TOKEN"].map (fun n => n ++ "=")) ++ "\n") ∧
    (mainRun (fun _ => none) false (fun _ => "") true witScenarioC6).2.1.envFile =
      some (String.intercalate "\n"
        (["A_KEY", "Z_TOKEN"].map (fun n => n ++ "=")) ++ "\n") :=
  (claim_C6 (fun _ => none) false (fun _ => "") witScenarioC6 witScenarioC6
    ["A_KEY", "Z_TOKEN"] rfl rfl rfl).2.2.2.2 (by decide)

/-! ## Claim C7: the agent-scenario artifact -/

/-- One participant block as the specification words it: role name,
endpoint built from the service name and the fixed shared participant
port, and an identity-reference line exactly when the participant was
declared via an identity reference. -/
def specParticipantBlock (d : String × Option String) : List String :=
  ["[[participants]]",
   "role = \"" ++ d.1 ++ "\"",
   "endpoint = \"http://" ++ d.1 ++ ":" ++ natRepr PARTICIPANT_PORT ++ "\""] ++
  (match d.2 with
   | some id => ["agentbeats_id = \"" ++ id ++ "\""]
   | none => []) ++ [""]

/-- The agent-scenario artifact as the specification describes it, built
from the original declarations: the evaluator's endpoint at the fixed
evaluator port first, then one block per participant in declaration
order, then the pass-through config mapping. -/
def a2aFromDecl (dumps : List (String × Toml) → String)
    (decls : List (String × Option String)) (cfg : Toml) : String :=
  String.intercalate "\n"
    (["[green_agent]",
      "endpoint = \"http://green-agent:" ++ natRepr GREEN_AGENT_PORT ++ "\"",
      ""] ++
     (if decls.isEmpty then [""] else (decls.map specParticipantBlock).flatten) ++
     [dumps [("config", cfg)]])

/-- Successful image resolution never changes an agent's name, identity
reference or environment — it only fills in `image`. -/
lemma resolve_image_preserves (fetch : String → Option String) (ci : Bool)
    (a : Agent) (role : String) (a' : Agent)
    (h : (resolve_image fetch ci a role).2 = Except.ok a') :
    a'.name = a.name ∧ a'.agentbeats_id = a.agentbeats_id ∧ a'.env = a.env := by
  rcases a with ⟨n, img, abid, env⟩
  cases img <;> cases abid <;> cases ci <;>
    (try (rename_i id; cases hf : fetch id)) <;>
    simp_all [resolve_image] <;>
    (subst h; exact ⟨rfl, rfl, rfl⟩)

/-- Resolving the participant list preserves every name, identity
reference and environment, in order. -/
lemma resolveParticipants_preserves (fetch : String → Option String) (ci : Bool) :
    ∀ (ps ps' : List Agent),
    (resolveParticipants fetch ci ps).2 = Except.ok ps' →
    ps'.map (fun p => (p.name, p.agentbeats_id)) =
      ps.map (fun p => (p.name, p.agentbeats_id)) := by
  intro ps
  induction ps with
  | nil =>
    intro ps' h
    simp only [resolveParticipants] at h
    cases h
    rfl
  | cons p rest ih =>
    intro ps' h
    simp only [resolveParticipants] at h
    cases hr : (resolve_image fetch ci p
        ("participant " ++ apos ++ (p.name.getD "unknown") ++ apos)).2 <;>
      rw [hr] at h
    · cases h
    · rename_i p'
      cases hrest : (resolveParticipants fetch ci rest).2 <;>
        simp only [hrest, Except.map] at h
      · cases h
      · rename_i rest'
        cases h
        obtain ⟨hn, hi, _⟩ := resolve_image_preserves fetch ci p _ p' hr
        simp [hn, hi, ih rest' hrest]

/-- A successful parse returns the scenario with the same config and with
participants whose names and identity references are those declared. -/
lemma parse_preserves (fetch : String → Option String) (ci : Bool)
    (data s' : ScenarioData)
    (h : (parse_scenario fetch ci data).2 = Except.ok s') :
    s'.config = data.config ∧
    s'.participants.map (fun p => (p.name, p.agentbeats_id)) =
      data.participants.map (fun p => (p.name, p.agentbeats_id)) := by
  simp only [parse_scenario] at h
  cases hg : (resolve_image fetch ci (data.green_agent.getD {}) "green_agent").2 <;>
    rw [hg] at h
  · cases h
  · by_cases hdup : (pyDups (data.participants.map Agent.name)).isEmpty <;>
      simp only [hdup, if_true, if_false, Bool.false_eq_true] at h
    · cases hr2 : (resolveParticipants fetch ci data.participants).2 <;>
        simp only [hr2, Except.map] at h
      · cases h
      · rename_i ps'
        cases h
        exact ⟨rfl, resolveParticipants_preserves fetch ci _ ps' hr2⟩
    · cases h

/-- The rendered a2a participant blocks are exactly the spec blocks of
the declared (name, identity reference) pairs. -/
lemma a2a_blocks_of_decls : ∀ (ps : List Agent) (decls : List (String × Option String)),
    ps.map (fun p => (p.name, p.agentbeats_id)) = decls.map (fun d => (some d.1, d.2)) →
    mapME participantA2ASegs ps = Except.ok (decls.map specParticipantBlock) := by
  intro ps
  induction ps with
  | nil =>
    intro decls h
    have : decls = [] := by
      cases decls with
      | nil => rfl
      | cons d ds => simp at h
    subst this
    rfl
  | cons p rest ih =>
    intro decls h
    cases decls with
    | nil => simp at h
    | cons d ds =>
      simp only [List.map_cons, List.cons.injEq] at h
      obtain ⟨hd, ht⟩ := h
      have hn : p.name = some d.1 := congrArg Prod.fst hd
      have hi : p.agentbeats_id = d.2 := congrArg Prod.snd hd
      have hpa : participantA2ASegs p = Except.ok (specParticipantBlock d) := by
        simp [participantA2ASegs, getName, hn, hi, specParticipantBlock, exBind]
      simp only [mapME, List.map_cons]
      rw [exBind_eq_of_ok hpa, exBind_eq_of_ok (ih ds ht)]

/-- Claim C7: for every resolved scenario, the agent-scenario artifact is
exactly the specification's description applied to the original
declarations — evaluator endpoint at the fixed port first, one block per
participant in declaration order with role name, endpoint from service
name and shared port, identity line exactly for identity-declared
participants, then the pass-through config. -/
theorem claim_C7 (fetch : String → Option String) (ci : Bool)
    (dumps : List (String × Toml) → String) (data s' : ScenarioData)
    (decls : List (String × Option String))
    (hres : (parse_scenario fetch ci data).2 = Except.ok s')
    (hdecl : data.participants.map (fun p => (p.name, p.agentbeats_id)) =
      decls.map (fun d => (some d.1, d.2))) :
    generate_a2a_scenario dumps s' =
      Except.ok (a2aFromDecl dumps decls (data.config.getD (Toml.table []))) := by
  obtain ⟨hcfg, hpart⟩ := parse_preserves fetch ci data s' hres
  have hsp : s'.participants.map (fun p => (p.name, p.agentbeats_id)) =
      decls.map (fun d => (some d.1, d.2)) := hpart.trans hdecl
  have hblocks := a2a_blocks_of_decls s'.participants decls hsp
  have hlen : s'.participants.length = decls.length := by
    have h1 := congrArg List.length hsp
    simpa using h1
  have hempty : s'.participants.isEmpty = decls.isEmpty := by
    cases hps : s'.participants <;> cases hds : decls <;>
      simp_all
  have hseg : a2aSegs dumps s' = Except.ok
      (["[green_agent]",
        "endpoint = \"http://green-agent:" ++ natRepr GREEN_AGENT_PORT ++ "\"",
        ""] ++
       (if decls.isEmpty then [""] else (decls.map specParticipantBlock).flatten) ++
       [dumps [("config", (data.config.getD (Toml.table [])))]]) := by
    rw [a2aSegs, exBind_eq_of_ok hblocks, hempty, hcfg]
  rw [generate_a2a_scenario, hseg]
  rfl

/-- Scenario for the C7 witness: one participant declared by identity
reference, resolved through the lookup. -/
def witScenarioC7 : ScenarioData :=
  { green_agent := some { image := some "img:g" },
    participants := [{ name := some "p1", agentbeats_id := some "id1" }],
    config := some (Toml.table [("rounds", Toml.int 3)]) }

/-- `witScenarioC7` after resolution: the participant gained the fetched
image, everything else unchanged. -/
def witScenarioC7' : ScenarioData :=
  { green_agent := some { image := some "img:g" },
    participants := [{ name := some "p1", image := some "img:fetched",
                       agentbeats_id := some "id1" }],
    config := some (Toml.table [("rounds", Toml.int 3)]) }

/-- Witness for C7 at a concrete scenario resolved through the lookup. -/
theorem claim_C7_witness :
    generate_a2a_scenario (fun _ => "CFG") witScenarioC7' =
      Except.ok (a2aFromDecl (fun _ => "CFG") [("p1", some "id1")]
        (witScenarioC7.config.getD (Toml.table []))) :=
  claim_C7 (fun _ => some "img:fetched") false (fun _ => "CFG")
    witScenarioC7 witScenarioC7' [("p1", some "id1")] rfl rfl

/-! ## Claim C8: default environment merge -/

/-- An absent key looks up to nothing. -/
lemma alookup_of_hasKey_false : ∀ (d : List (String × Toml)) (k : String),
    hasKey k d = false → alookup k d = none := by
  intro d k
  induction d with
  | nil => intro _; rfl
  | cons kv rest ih =>
    obtain ⟨k', v⟩ := kv
    intro h
    simp only [hasKey, Bool.or_eq_false_iff, decide_eq_false_iff_not] at h
    simp [alookup, h.1, ih h.2]

/-- A key outside the key list looks up to nothing. -/
lemma alookup_of_not_mem : ∀ (d : List (String × Toml)) (k : String),
    k ∉ d.map Prod.fst → alookup k d = none := by
  intro d k
  induction d with
  | nil => intro _; rfl
  | cons kv rest ih =>
    obtain ⟨k', v⟩ := kv
    intro h
    simp only [List.map_cons, List.mem_cons] at h
    push_neg at h
    simp [alookup, Ne.symm h.1, ih h.2]

/-- Replacing the value at a present key makes it the looked-up value. -/
lemma alookup_setKey_self : ∀ (d : List (String × Toml)) (k : String) (v : Toml),
    hasKey k d = true → alookup k (setKey k v d) = some v := by
  intro d k v
  induction d with
  | nil => intro h; cases h
  | cons kv rest ih =>
    obtain ⟨k', v'⟩ := kv
    intro h
    by_cases he : k' = k
    · simp [setKey, alookup, he]
    · simp only [hasKey, Bool.or_eq_true, decide_eq_true_eq] at h
      rcases h with h | h
      · exact absurd h he
      · simp [setKey, alookup, he, ih h]

/-- Replacing the value at one key leaves other lookups unchanged. -/
lemma alookup_setKey_other : ∀ (d : List (String × Toml)) (k k' : String) (v : Toml),
    k' ≠ k → alookup k' (setKey k v d) = alookup k' d := by
  intro d k k' v hne
  induction d with
  | nil => rfl
  | cons kv rest ih =>
    obtain ⟨k'', v''⟩ := kv
    simp only [setKey]
    by_cases he : k'' = k
    · rw [if_pos he]
      have h1 : ¬(k'' = k') := fun hh => hne (hh.symm.trans he)
      simp only [alookup, if_neg h1]
    · rw [if_neg he]
      simp only [alookup]
      by_cases he2 : k'' = k'
      · rw [if_pos he2, if_pos he2]
      · rw [if_neg he2, if_neg he2]
        exact ih

/-- Lookup distributes over append. -/
lemma alookup_append : ∀ (d e : List (String × Toml)) (k : String),
    alookup k (d ++ e) =
      (match alookup k d with
       | some v => some v
       | none => alookup k e) := by
  intro d e k
  induction d with
  | nil => rfl
  | cons kv rest ih =>
    obtain ⟨k', v⟩ := kv
    by_cases he : k' = k <;> simp [alookup, he, ih]

/-- Python `d[k] = v` seen through lookup: the set key now holds `v`,
every other key is unchanged. -/
lemma alookup_dictSet (d : List (String × Toml)) (k k' : String) (v : Toml) :
    alookup k' (dictSet d k v) = if k' = k then some v else alookup k' d := by
  unfold dictSet
  by_cases hk : hasKey k d
  · by_cases he : k' = k
    · subst he; simp [hk, alookup_setKey_self d k' v hk]
    · simp [hk, he, alookup_setKey_other d k k' v he]
  · simp only [hk, if_false, Bool.false_eq_true]
    rw [alookup_append]
    by_cases he : k' = k
    · subst he
      rw [alookup_of_hasKey_false d k' (by simpa using hk)]
      simp [alookup]
    · have he2 : ¬(k = k') := fun hh => he hh.symm
      cases h : alookup k' d <;> simp [alookup, he, he2]

/-- Lookup in a Python dict merge `{**d, **e}` (for `e` with distinct
keys, as any parsed TOML table has): an explicit entry wins, otherwise the
default shows through. -/
lemma alookup_pyDictMerge : ∀ (e d : List (String × Toml)) (k : String),
    (e.map Prod.fst).Nodup →
    alookup k (pyDictMerge d e) =
      (match alookup k e with
       | some v => some v
       | none => alookup k d) := by
  intro e
  induction e with
  | nil => intro d k _; rfl
  | cons kv rest ih =>
    obtain ⟨k0, v0⟩ := kv
    intro d k hnodup
    simp only [List.map_cons, List.nodup_cons] at hnodup
    obtain ⟨hnotin, hnd⟩ := hnodup
    simp only [pyDictMerge]
    rw [ih _ _ hnd]
    by_cases he : k0 = k
    · subst he
      rw [alookup_of_not_mem rest k0 hnotin]
      simp [alookup, alookup_dictSet]
    · have he2 : ¬(k = k0) := fun hh => he hh.symm
      cases h : alookup k rest <;>
        simp [alookup, h, alookup_dictSet, he, he2]

/-- Claim C8: the environment rendered into a service block is the fixed
defaults merged with the agent's explicit entries; an explicit entry whose
key collides with a default replaces the default's value, and every
default key without an explicit override is present with its default
value. -/
theorem claim_C8 (kvs : List (String × Toml))
    (hnd : (kvs.map Prod.fst).Nodup) (lines : List String)
    (h : format_env_vars (Toml.table kvs) = Except.ok lines) :
    lines = (pyDictMerge DEFAULT_ENV_VARS kvs).map envLine ∧
    (∀ k v, alookup k kvs = some v →
      alookup k (pyDictMerge DEFAULT_ENV_VARS kvs) = some v) ∧
    (∀ k, alookup k kvs = none →
      alookup k (pyDictMerge DEFAULT_ENV_VARS kvs) = alookup k DEFAULT_ENV_VARS) := by
  refine ⟨?_, ?_, ?_⟩
  · simp only [format_env_vars, Except.ok.injEq] at h
    exact h.symm
  · intro k v hk
    rw [alookup_pyDictMerge kvs DEFAULT_ENV_VARS k hnd, hk]
  · intro k hk
    rw [alookup_pyDictMerge kvs DEFAULT_ENV_VARS k hnd, hk]

/-- The explicit environment of the C8 witness: it overrides the default
`PYTHONUNBUFFERED` and adds a key of its own. -/
def witKvsC8 : List (String × Toml) :=
  [("PYTHONUNBUFFERED", Toml.str "0"), ("A", Toml.str "x")]

/-- Witness for C8: explicit wins over the default, and the rendered
lines are the merged entries. -/
theorem claim_C8_witness :
    ["      - PYTHONUNBUFFERED=0", "      - A=x"] =
      (pyDictMerge DEFAULT_ENV_VARS witKvsC8).map envLine ∧
    alookup "PYTHONUNBUFFERED" (pyDictMerge DEFAULT_ENV_VARS witKvsC8) =
      some (Toml.str "0") :=
  ⟨(claim_C8 witKvsC8 (by decide) _ rfl).1,
   (claim_C8 witKvsC8 (by decide) _ rfl).2.1 "PYTHONUNBUFFERED" (Toml.str "0") rfl⟩

/-! ## Claim C9: deterministic rendering -/

/-- A fallible map only depends on the projection its body reads. -/
lemma mapME_congr_proj {γ β : Type} (proj : Agent → γ) (g : Agent → Except String β)
    (hg : ∀ p q, proj p = proj q → g p = g q) :
    ∀ l1 l2 : List Agent, l1.map proj = l2.map proj → mapME g l1 = mapME g l2 := by
  intro l1
  induction l1 with
  | nil =>
    intro l2 h
    cases l2 with
    | nil => rfl
    | cons q l2 => simp at h
  | cons p rest ih =>
    intro l2 h
    cases l2 with
    | nil => simp at h
    | cons q rest2 =>
      simp only [List.map_cons, List.cons.injEq] at h
      simp only [mapME, hg p q h.1, ih rest2 h.2]

/-- The docker-compose text depends only on the evaluator's image and env
and on each participant's name, image and env. -/
lemma gdcSegs_congr (s t : ScenarioData)
    (hg : s.green_agent.map (fun g => (g.image, g.env)) =
      t.green_agent.map (fun g => (g.image, g.env)))
    (hp : s.participants.map (fun p => (p.name, p.image, p.env)) =
      t.participants.map (fun p => (p.name, p.image, p.env))) :
    gdcSegs s = gdcSegs t := by
  have hnames : mapME getName s.participants = mapME getName t.participants := by
    refine mapME_congr_proj _ getName (fun p q h => ?_) _ _ hp
    have h1 : p.name = q.name := congrArg Prod.fst h
    unfold getName
    rw [h1]
  have hsvc : mapME participantService s.participants =
      mapME participantService t.participants := by
    refine mapME_congr_proj _ participantService (fun p q h => ?_) _ _ hp
    have h1 : p.name = q.name := congrArg Prod.fst h
    have h2 : p.image = q.image := congrArg (fun x => x.2.1) h
    have h3 : p.env = q.env := congrArg (fun x => x.2.2) h
    unfold participantService getName getImage envOrEmpty
    rw [h1, h2, h3]
  have hempty : s.participants.isEmpty = t.participants.isEmpty := by
    have hl := congrArg List.length hp
    simp only [List.length_map] at hl
    cases hps : s.participants <;> cases hpt : t.participants <;>
      rw [hps, hpt] at hl <;> simp_all
  unfold gdcSegs
  cases hsg : s.green_agent <;> cases htg : t.green_agent
  · simp [getGreen, exBind, hsg, htg]
  · rw [hsg, htg] at hg; simp at hg
  · rw [hsg, htg] at hg; simp at hg
  · rename_i g1 g2
    rw [hsg, htg] at hg
    simp only [Option.map_some', Option.some.injEq, Prod.mk.injEq] at hg
    simp only [getGreen, hsg, htg, exBind]
    rw [hnames, hsvc, hempty]
    unfold getImage envOrEmpty
    rw [hg.1, hg.2]

/-- The a2a scenario text depends only on each participant's name and
identity reference and on the config section. -/
lemma a2aSegs_congr (dumps : List (String × Toml) → String) (s t : ScenarioData)
    (hp : s.participants.map (fun p => (p.name, p.agentbeats_id)) =
      t.participants.map (fun p => (p.name, p.agentbeats_id)))
    (hc : s.config = t.config) :
    a2aSegs dumps s = a2aSegs dumps t := by
  have hb : mapME participantA2ASegs s.participants =
      mapME participantA2ASegs t.participants := by
    refine mapME_congr_proj _ participantA2ASegs (fun p q h => ?_) _ _ hp
    have h1 : p.name = q.name := congrArg Prod.fst h
    have h2 : p.agentbeats_id = q.agentbeats_id := congrArg Prod.snd h
    unfold participantA2ASegs getName
    rw [h1, h2]
  have hempty : s.participants.isEmpty = t.participants.isEmpty := by
    have hl := congrArg List.length hp
    simp only [List.length_map] at hl
    cases hps : s.participants <;> cases hpt : t.participants <;>
      rw [hps, hpt] at hl <;> simp_all
  unfold a2aSegs
  rw [hb, hempty, hc]

/-- The secret placeholder list depends only on the env tables. -/
lemma secretsOf_congr (s t : ScenarioData)
    (hg : s.green_agent.map (fun g => g.env) = t.green_agent.map (fun g => g.env))
    (hp : s.participants.map (fun p => p.env) = t.participants.map (fun p => p.env)) :
    secretsOf s = secretsOf t := by
  have hd : mapME envDictOf s.participants = mapME envDictOf t.participants := by
    refine mapME_congr_proj _ envDictOf (fun p q h => ?_) _ _ hp
    unfold envDictOf envOrEmpty
    rw [h]
  unfold secretsOf
  cases hsg : s.green_agent <;> cases htg : t.green_agent
  · simp [getGreen, exBind, hsg, htg]
  · rw [hsg, htg] at hg; simp at hg
  · rw [hsg, htg] at hg; simp at hg
  · rename_i g1 g2
    rw [hsg, htg] at hg
    simp only [Option.map_some', Option.some.injEq] at hg
    simp only [getGreen, hsg, htg, exBind]
    rw [hd]
    unfold envDictOf envOrEmpty
    rw [hg]

/-- Claim C9: each renderer is a deterministic function of the resolved
model it consumes — two scenario values agreeing on the evaluator's image
and env, the participants' names, images, envs and identity references,
and the config render byte-identical artifacts; in particular re-rendering
the same resolved scenario yields byte-identical text. -/
theorem claim_C9 (dumps : List (String × Toml) → String) (s t : ScenarioData)
    (hgreen : s.green_agent.map (fun g => (g.image, g.env)) =
      t.green_agent.map (fun g => (g.image, g.env)))
    (hpart3 : s.participants.map (fun p => (p.name, p.image, p.env)) =
      t.participants.map (fun p => (p.name, p.image, p.env)))
    (hpart2 : s.participants.map (fun p => (p.name, p.agentbeats_id)) =
      t.participants.map (fun p => (p.name, p.agentbeats_id)))
    (hcfg : s.config = t.config) :
    generate_docker_compose s = generate_docker_compose t ∧
    generate_a2a_scenario dumps s = generate_a2a_scenario dumps t ∧
    generate_env_file s = generate_env_file t := by
  have h1 := gdcSegs_congr s t hgreen hpart3
  have hgenv : s.green_agent.map (fun g => g.env) =
      t.green_agent.map (fun g => g.env) := by
    cases hsg : s.green_agent <;> cases htg : t.green_agent <;>
      rw [hsg, htg] at hgreen <;> simp_all
  have hpenv : s.participants.map (fun p => p.env) =
      t.participants.map (fun p => p.env) := by
    have := congrArg (List.map (fun x : Option String × Option String × Option Toml =>
      x.2.2)) hpart3
    simpa [List.map_map, Function.comp] using this
  have h2 := a2aSegs_congr dumps s t hpart2 hcfg
  have h3 := secretsOf_congr s t hgenv hpenv
  refine ⟨?_, ?_, ?_⟩
  · unfold generate_docker_compose; rw [h1]
  · unfold generate_a2a_scenario; rw [h2]
  · unfold generate_env_file; rw [h3]

/-- For the C9 witness: a scenario whose evaluator carries a (redundant)
identity reference alongside its resolved image. -/
def witScenarioC9s : ScenarioData :=
  { green_agent := some { image := some "img:g", agentbeats_id := some "gid" },
    participants := [{ name := some "p1", image := some "img:p1" }] }

/-- The same resolved model with a different evaluator identity field. -/
def witScenarioC9t : ScenarioData :=
  { green_agent := some { image := some "img:g" },
    participants := [{ name := some "p1", image := some "img:p1" }] }

/-- Witness for C9: the two scenarios agree on everything the renderers
read, so all three artifacts coincide byte for byte. -/
theorem claim_C9_witness :
    generate_docker_compose witScenarioC9s = generate_docker_compose witScenarioC9t ∧
    generate_a2a_scenario (fun _ => "CFG") witScenarioC9s =
      generate_a2a_scenario (fun _ => "CFG") witScenarioC9t ∧
    generate_env_file witScenarioC9s = generate_env_file witScenarioC9t :=
  claim_C9 (fun _ => "CFG") witScenarioC9s witScenarioC9t rfl rfl rfl rfl

/-! ## End-to-end sample -/

/-- The exact docker-compose.yml text for `witScenarioC1` (evaluator
`img:g`, one participant `p1` with `img:p1`), as the source emits it. -/
def sampleComposeText : String :=
  "# Auto-generated from scenario.toml\n\nservices:\n  green-agent:\n    image: img:g\n" ++
  "    platform: linux/amd64\n    container_name: green-agent\n    environment:\n" ++
  "      - PYTHONUNBUFFERED=1\n    healthcheck:\n      test: [\"CMD\", \"python\", \"-c\", " ++
  "\"import urllib.request; urllib.request.urlopen(" ++ apos ++
  "http://localhost:9000/health" ++ apos ++ ")\"]\n      interval: 5s\n      timeout: 5s\n" ++
  "      retries: 10\n      start_period: 10s\n    depends_on:\n      p1:\n" ++
  "        condition: service_started\n    networks:\n      - agent-network\n\n  p1:\n" ++
  "    image: img:p1\n    platform: linux/amd64\n    container_name: p1\n    environment:\n" ++
  "      - PYTHONUNBUFFERED=1\n    networks:\n      - agent-network\n\n  agentbeats-client:\n" ++
  "    image: ghcr.io/agentbeats/agentbeats-client:v1.0.0\n    platform: linux/amd64\n" ++
  "    container_name: agentbeats-client\n    volumes:\n" ++
  "      - ./a2a-scenario.toml:/app/scenario.toml\n      - ./output:/app/output\n" ++
  "    command: [\"scenario.toml\", \"output/results.json\"]\n    depends_on:\n" ++
  "      green-agent:\n        condition: service_healthy\n      p1:\n" ++
  "        condition: service_started\n    networks:\n      - agent-network\n\n" ++
  "networks:\n  agent-network:\n    driver: bridge\n"

set_option maxRecDepth 8192 in
/-- End-to-end pin of the rendered artifacts on the sample scenario: the
deployment-topology segments line by line, the tiny no-participant
scenario's full text character for character, the agent-scenario text,
and the absence of a placeholder file. -/
theorem sample_end_to_end :
    gdcSegs witScenarioC1 = Except.ok
      (["# Auto-generated from scenario.toml", "", "services:", "  green-agent:",
        "    image: img:g", "    platform: linux/amd64", "    container_name: green-agent",
        "    environment:", "      - PYTHONUNBUFFERED=1", "    healthcheck:",
        "      test: [\"CMD\", \"python\", \"-c\", \"import urllib.request; urllib.request.urlopen(" ++
          apos ++ "http://localhost:9000/health" ++ apos ++ ")\"]",
        "      interval: 5s", "      timeout: 5s", "      retries: 10",
        "      start_period: 10s", "    depends_on:", "      p1:",
        "        condition: service_started", "    networks:", "      - agent-network",
        "", "  p1:", "    image: img:p1", "    platform: linux/amd64",
        "    container_name: p1", "    environment:", "      - PYTHONUNBUFFERED=1",
        "    networks:", "      - agent-network", "", "  agentbeats-client:",
        "    image: ghcr.io/agentbeats/agentbeats-client:v1.0.0",
        "    platform: linux/amd64", "    container_name: agentbeats-client",
        "    volumes:", "      - ./a2a-scenario.toml:/app/scenario.toml",
        "      - ./output:/app/output",
        "    command: [\"scenario.toml\", \"output/results.json\"]", "    depends_on:",
        "      green-agent:", "        condition: service_healthy", "      p1:",
        "        condition: service_started", "    networks:", "      - agent-network",
        "", "networks:", "  agent-network:", "    driver: bridge", ""]) ∧
    generate_a2a_scenario (fun _ => "CFG") witScenarioC1 =
      Except.ok ("[green_agent]\nendpoint = \"http://green-agent:9000\"\n\n" ++
        "[[participants]]\nrole = \"p1\"\nendpoint = \"http://p1:8001\"\n\nCFG") ∧
    generate_env_file witScenarioC1 = Except.ok "" ∧
    (mainRun (fun _ => none) false (fun _ => "CFG") true witScenarioC1).2.1.envFile =
      none :=
  ⟨by decide, by decide, rfl, rfl⟩
